import Mathlib

/-!
Formal model of the AstroAlert orbit-propagation and conjunction-detection
engine (`backend/propagate.py` together with the scheduler loop of
`backend/main.py`), and theorems checking the specified properties.

Quantities the source computes with floats and transcendental functions are
modelled over `ℝ`; counters, timestamps and log bookkeeping are modelled
over `ℕ`/`ℚ` so that they stay executable.  Calls to `random.uniform` /
`random.gauss` / `datetime.now()` are modelled by explicit parameters.
-/

open scoped Classical

/-- `EARTH_RADIUS = 6371.0` km, from `propagate.py`. -/
noncomputable def EARTH_RADIUS : ℝ := 6371

/-- Euclidean magnitude of a 3-vector, `math.sqrt(x**2 + y**2 + z**2)`. -/
noncomputable def mag (p : ℝ × ℝ × ℝ) : ℝ :=
  Real.sqrt (p.1 ^ 2 + p.2.1 ^ 2 + p.2.2 ^ 2)

/-- `OrbitPropagator._random_position`: position at a given altitude; the
randomly drawn spherical angles `theta` (longitude) and `phi` (latitude)
are passed in as parameters. -/
noncomputable def random_position (altitude θ φ : ℝ) : ℝ × ℝ × ℝ :=
  ((EARTH_RADIUS + altitude) * Real.sin φ * Real.cos θ,
   (EARTH_RADIUS + altitude) * Real.sin φ * Real.sin θ,
   (EARTH_RADIUS + altitude) * Real.cos φ)

/-- `math.atan2 y x`, modelled as the argument of the complex number `x + y·i`. -/
noncomputable def atan2 (y x : ℝ) : ℝ := Complex.arg ⟨x, y⟩

/-- Orbital period `2π·sqrt(orbital_radius³ / μ)` with `μ = 398600.4418`,
from `OrbitPropagator._update_position`. -/
noncomputable def orbital_period (altitude : ℝ) : ℝ :=
  2 * Real.pi * Real.sqrt ((EARTH_RADIUS + altitude) ^ 3 / 398600.4418)

/-- Angular velocity `2π / orbital_period`. -/
noncomputable def angular_velocity (altitude : ℝ) : ℝ :=
  2 * Real.pi / orbital_period altitude

/-- `OrbitPropagator._update_position` acting on the position vector: the
current position is converted to spherical coordinates `(r, θ, φ)`, the
azimuth advances by `angular_velocity · dt`, the polar angle receives the
Gaussian perturbation draw `ε` (`random.gauss(0, 0.001)` in the source),
and the result is converted back to Cartesian using the same radius `r`. -/
noncomputable def update_position (p : ℝ × ℝ × ℝ) (altitude dt ε : ℝ) : ℝ × ℝ × ℝ :=
  (mag p * Real.sin (Real.arccos (p.2.2 / mag p) + ε) *
     Real.cos (atan2 p.2.1 p.1 + angular_velocity altitude * dt),
   mag p * Real.sin (Real.arccos (p.2.2 / mag p) + ε) *
     Real.sin (atan2 p.2.1 p.1 + angular_velocity altitude * dt),
   mag p * Real.cos (Real.arccos (p.2.2 / mag p) + ε))

theorem mag_nonneg (p : ℝ × ℝ × ℝ) : 0 ≤ mag p := Real.sqrt_nonneg _

theorem mag_spherical (r θ φ : ℝ) (hr : 0 ≤ r) :
    mag (r * Real.sin φ * Real.cos θ, r * Real.sin φ * Real.sin θ, r * Real.cos φ) = r := by
  have key : (r * Real.sin φ * Real.cos θ) ^ 2 + (r * Real.sin φ * Real.sin θ) ^ 2 +
      (r * Real.cos φ) ^ 2 = r ^ 2 := by
    have h1 := Real.sin_sq_add_cos_sq θ
    have h2 := Real.sin_sq_add_cos_sq φ
    linear_combination (r ^ 2 * Real.sin φ ^ 2) * h1 + r ^ 2 * h2
  unfold mag
  rw [show ((r * Real.sin φ * Real.cos θ, r * Real.sin φ * Real.sin θ, r * Real.cos φ) :
      ℝ × ℝ × ℝ).1 = r * Real.sin φ * Real.cos θ from rfl]
  rw [show ((r * Real.sin φ * Real.cos θ, r * Real.sin φ * Real.sin θ, r * Real.cos φ) :
      ℝ × ℝ × ℝ).2.1 = r * Real.sin φ * Real.sin θ from rfl]
  rw [show ((r * Real.sin φ * Real.cos θ, r * Real.sin φ * Real.sin θ, r * Real.cos φ) :
      ℝ × ℝ × ℝ).2.2 = r * Real.cos φ from rfl]
  rw [key]
  exact Real.sqrt_sq hr

theorem mag_update_position (p : ℝ × ℝ × ℝ) (altitude dt ε : ℝ) :
    mag (update_position p altitude dt ε) = mag p := by
  have h := mag_spherical (mag p) (atan2 p.2.1 p.1 + angular_velocity altitude * dt)
    (Real.arccos (p.2.2 / mag p) + ε) (mag_nonneg p)
  simpa [update_position] using h

theorem mag_random_position (altitude θ φ : ℝ) (h : 0 ≤ EARTH_RADIUS + altitude) :
    mag (random_position altitude θ φ) = EARTH_RADIUS + altitude := by
  have hs := mag_spherical (EARTH_RADIUS + altitude) θ φ h
  simpa [random_position] using hs

/-- A `risk_objects` entry, as built in `OrbitPropagator._check_conjunctions`. -/
structure RiskEntry where
  object_id : String
  distance_km : ℝ
  velocity_kmps : ℝ
  time_to_conjunction : ℝ
  risk_level : String

/-- A space object of the catalog (`self.space_objects` entries). -/
structure SpaceObject where
  id : String
  name : String
  type : String
  orbit_type : String
  altitude : ℝ
  inclination : ℝ
  position : ℝ × ℝ × ℝ
  velocity : ℝ
  last_update : ℚ
  risk_objects : List RiskEntry

noncomputable instance : Inhabited SpaceObject :=
  ⟨⟨"", "", "", "", 0, 0, (0, 0, 0), 0, 0, []⟩⟩

/-- `OrbitPropagator._calculate_distance`. -/
noncomputable def calculate_distance (pos1 pos2 : ℝ × ℝ × ℝ) : ℝ :=
  Real.sqrt ((pos1.1 - pos2.1) ^ 2 + (pos1.2.1 - pos2.2.1) ^ 2 + (pos1.2.2 - pos2.2.2) ^ 2)

/-- `OrbitPropagator._calculate_risk_level`. -/
noncomputable def calculate_risk_level (distance time_to_conjunction : ℝ) : String :=
  if distance < 20 ∧ time_to_conjunction < 2 then "High"
  else if distance < 50 ∧ time_to_conjunction < 12 then "Medium"
  else "Low"

/-- Pair distance, `self._calculate_distance(obj1["position"], obj2["position"])`. -/
noncomputable def pairDistance (o1 o2 : SpaceObject) : ℝ :=
  calculate_distance o1.position o2.position

/-- Simplified relative velocity, `abs(obj1["velocity"] - obj2["velocity"])`. -/
noncomputable def pairRelVelocity (o1 o2 : SpaceObject) : ℝ :=
  |o1.velocity - o2.velocity|

/-- `time_to_conjunction = max(0.1, distance / (rel_velocity + 0.001))`. -/
noncomputable def time_to_conjunction (distance rel_velocity : ℝ) : ℝ :=
  max 0.1 (distance / (rel_velocity + 0.001))

noncomputable def pairTTC (o1 o2 : SpaceObject) : ℝ :=
  time_to_conjunction (pairDistance o1 o2) (pairRelVelocity o1 o2)

/-- The `risk_data` record appended to `obj1["risk_objects"]` for the pair
`(o1, o2)` (the record appended to `obj2` is `riskData o2 o1`). -/
noncomputable def riskData (o1 o2 : SpaceObject) : RiskEntry :=
  { object_id := o2.id
    distance_km := pairDistance o1 o2
    velocity_kmps := pairRelVelocity o1 o2
    time_to_conjunction := pairTTC o1 o2
    risk_level := calculate_risk_level (pairDistance o1 o2) (pairTTC o1 o2) }

/-- Index pairs `(i, j)` with `i < j < n`, in the traversal order of the
nested loops `for i, obj1 in enumerate(...): for j, obj2 in enumerate(self.space_objects[i+1:], i+1)`. -/
def allPairs (n : ℕ) : List (ℕ × ℕ) :=
  (List.range n).flatMap fun i => ((List.range n).filter fun j => i < j).map fun j => (i, j)

theorem mem_allPairs {n a b : ℕ} : (a, b) ∈ allPairs n ↔ a < b ∧ b < n := by
  simp only [allPairs, List.mem_flatMap, List.mem_map, List.mem_filter, List.mem_range,
    decide_eq_true_eq, Prod.mk.injEq]
  constructor
  · rintro ⟨i, hi, j, ⟨hj, hij⟩, rfl, rfl⟩
    exact ⟨hij, hj⟩
  · rintro ⟨hab, hbn⟩
    exact ⟨a, lt_trans hab hbn, b, ⟨hbn, hab⟩, rfl, rfl⟩

/-- The `risk_objects` list the detection pass leaves on the object at index
`i`, in traversal order of the pair loops: at pair `(a, b)` with
`distance < 100`, object `a` receives `riskData a b` and object `b` receives
`riskData b a` (lines 139–157 of `propagate.py`). -/
noncomputable def riskObjectsFor (objs : List SpaceObject) (i : ℕ) : List RiskEntry :=
  (allPairs objs.length).filterMap fun ab =>
    let o1 := objs.getD ab.1 default
    let o2 := objs.getD ab.2 default
    if calculate_distance o1.position o2.position < 100 then
      if ab.1 = i then some (riskData o1 o2)
      else if ab.2 = i then some (riskData o2 o1)
      else none
    else none

/-- Helper recursion for `_check_conjunctions`: rebuild the list, giving the
object at overall index `k + (position in the sublist)` its fresh
`risk_objects` computed from the full catalog `ctx` (the source first clears
every `risk_objects` and then appends pair by pair; the final contents are
exactly `riskObjectsFor`). -/
noncomputable def assignRisk (ctx : List SpaceObject) : ℕ → List SpaceObject → List SpaceObject
  | _, [] => []
  | k, o :: rest => { o with risk_objects := riskObjectsFor ctx k } :: assignRisk ctx (k + 1) rest

/-- `OrbitPropagator._check_conjunctions`, risk-annotation part. -/
noncomputable def check_conjunctions (objs : List SpaceObject) : List SpaceObject :=
  assignRisk objs 0 objs

/-- One pair's evaluation in the alert-generation part of
`_check_conjunctions` (lines 159–164), carrying `last_alert_time` and the
pairs for which `_generate_alert` has been called: the alert fires when the
pair is closer than 100 km, its risk level is `"High"`, and more than 10
seconds have passed since the last alert.  Within one tick every call to
`datetime.now()` is modelled by the tick time `now`. -/
noncomputable def detectorAlertStep (objs : List SpaceObject) (now : ℝ)
    (st : ℝ × List (ℕ × ℕ)) (ab : ℕ × ℕ) : ℝ × List (ℕ × ℕ) :=
  if pairDistance (objs.getD ab.1 default) (objs.getD ab.2 default) < 100 ∧
      calculate_risk_level (pairDistance (objs.getD ab.1 default) (objs.getD ab.2 default))
        (pairTTC (objs.getD ab.1 default) (objs.getD ab.2 default)) = "High" ∧
      now - st.1 > 10 then
    (now, st.2 ++ [ab])
  else st

/-- The pairs for which `_generate_alert` is called during one detection
pass. -/
noncomputable def detectorAlertPairs (objs : List SpaceObject) (lastAlert now : ℝ) :
    List (ℕ × ℕ) :=
  ((allPairs objs.length).foldl (detectorAlertStep objs now)
    ((lastAlert, []) : ℝ × List (ℕ × ℕ))).2

/-- One tick's randomness and timing: the per-object Gaussian draws and the
wall-clock time of the tick. -/
structure TickInput where
  dt : ℝ
  perturb : ℕ → ℝ
  now : ℚ

/-- The position-update loop of `OrbitPropagator.update`: every object's
`position` is advanced by `_update_position` and its `last_update` set. -/
noncomputable def updateObjects (inp : TickInput) : ℕ → List SpaceObject → List SpaceObject
  | _, [] => []
  | k, o :: rest =>
    { o with position := update_position o.position o.altitude inp.dt (inp.perturb k),
             last_update := inp.now } :: updateObjects inp (k + 1) rest

/-- One full `OrbitPropagator.update` tick: propagate all positions, then run
the detection pass. -/
noncomputable def updateTick (inp : TickInput) (objs : List SpaceObject) : List SpaceObject :=
  check_conjunctions (updateObjects inp 0 objs)

/-- Any number of consecutive ticks. -/
noncomputable def runTicks (ins : List TickInput) (objs : List SpaceObject) : List SpaceObject :=
  ins.foldl (fun os inp => updateTick inp os) objs

theorem assignRisk_length (ctx : List SpaceObject) :
    ∀ (objs : List SpaceObject) (k : ℕ), (assignRisk ctx k objs).length = objs.length
  | [], _ => rfl
  | _ :: rest, k => by simp [assignRisk, assignRisk_length ctx rest (k + 1)]

theorem updateObjects_length (inp : TickInput) :
    ∀ (objs : List SpaceObject) (k : ℕ), (updateObjects inp k objs).length = objs.length
  | [], _ => rfl
  | _ :: rest, k => by simp [updateObjects, updateObjects_length inp rest (k + 1)]

theorem updateTick_length (inp : TickInput) (objs : List SpaceObject) :
    (updateTick inp objs).length = objs.length := by
  simp [updateTick, check_conjunctions, assignRisk_length, updateObjects_length]

theorem assignRisk_getD (ctx : List SpaceObject) :
    ∀ (objs : List SpaceObject) (k i : ℕ), i < objs.length →
      (assignRisk ctx k objs).getD i default =
        { objs.getD i default with risk_objects := riskObjectsFor ctx (k + i) }
  | [], _, i, h => absurd h (by simp)
  | o :: rest, k, 0, _ => by simp [assignRisk]
  | o :: rest, k, i + 1, h => by
    have ih := assignRisk_getD ctx rest (k + 1) i (by simpa using Nat.lt_of_succ_lt_succ h)
    simpa [assignRisk, Nat.add_assoc, Nat.add_comm 1 i] using ih

theorem updateObjects_getD (inp : TickInput) :
    ∀ (objs : List SpaceObject) (k i : ℕ), i < objs.length →
      (updateObjects inp k objs).getD i default =
        { objs.getD i default with
            position := update_position (objs.getD i default).position
              (objs.getD i default).altitude inp.dt (inp.perturb (k + i)),
            last_update := inp.now }
  | [], _, i, h => absurd h (by simp)
  | o :: rest, k, 0, _ => by simp [updateObjects]
  | o :: rest, k, i + 1, h => by
    have ih := updateObjects_getD inp rest (k + 1) i (by simpa using Nat.lt_of_succ_lt_succ h)
    simpa [updateObjects, Nat.add_assoc, Nat.add_comm 1 i] using ih

theorem updateTick_getD (inp : TickInput) (objs : List SpaceObject) (i : ℕ)
    (h : i < objs.length) :
    (updateTick inp objs).getD i default =
      { objs.getD i default with
          position := update_position (objs.getD i default).position
            (objs.getD i default).altitude inp.dt (inp.perturb i),
          last_update := inp.now,
          risk_objects := riskObjectsFor (updateObjects inp 0 objs) i } := by
  have h' : i < (updateObjects inp 0 objs).length := by
    simpa [updateObjects_length] using h
  rw [updateTick, check_conjunctions, assignRisk_getD _ _ 0 i h',
    updateObjects_getD inp objs 0 i h]
  simp

theorem runTicks_nil (objs : List SpaceObject) : runTicks [] objs = objs := rfl

theorem runTicks_cons (inp : TickInput) (ins : List TickInput) (objs : List SpaceObject) :
    runTicks (inp :: ins) objs = runTicks ins (updateTick inp objs) := rfl

theorem radius_invariant_runTicks :
    ∀ (ins : List TickInput) (objs : List SpaceObject) (i : ℕ),
      i < objs.length →
      mag (objs.getD i default).position = EARTH_RADIUS + (objs.getD i default).altitude →
      mag ((runTicks ins objs).getD i default).position
        = EARTH_RADIUS + ((runTicks ins objs).getD i default).altitude
  | [], _, _, _, hinv => hinv
  | inp :: ins, objs, i, hi, hinv => by
    have hlen : i < (updateTick inp objs).length := by simpa [updateTick_length] using hi
    have hstep := updateTick_getD inp objs i hi
    have hpos : mag ((updateTick inp objs).getD i default).position
        = EARTH_RADIUS + ((updateTick inp objs).getD i default).altitude := by
      rw [hstep]
      simpa [mag_update_position] using hinv
    have h := radius_invariant_runTicks ins (updateTick inp objs) i hlen hpos
    simpa [runTicks_cons] using h

/-- C1: the orbital-radius invariant.  A freshly created position has
magnitude exactly `EARTH_RADIUS + altitude`; a single `_update_position`
step preserves the magnitude of the position vector exactly (for any `dt`
and any perturbation draw); and hence over any number of consecutive
`update` ticks every catalog object keeps
`|position| = EARTH_RADIUS + altitude`. -/
theorem c1_radius_invariant :
    (∀ altitude θ φ : ℝ, 0 ≤ EARTH_RADIUS + altitude →
      mag (random_position altitude θ φ) = EARTH_RADIUS + altitude) ∧
    (∀ (p : ℝ × ℝ × ℝ) (altitude dt ε : ℝ),
      mag (update_position p altitude dt ε) = mag p) ∧
    (∀ (ins : List TickInput) (objs : List SpaceObject) (i : ℕ),
      i < objs.length →
      mag (objs.getD i default).position = EARTH_RADIUS + (objs.getD i default).altitude →
      mag ((runTicks ins objs).getD i default).position
        = EARTH_RADIUS + ((runTicks ins objs).getD i default).altitude) :=
  ⟨mag_random_position, mag_update_position, radius_invariant_runTicks⟩

/-- A concrete ISS-like object sitting at radius `EARTH_RADIUS + 408`. -/
noncomputable def c1WitnessObj : SpaceObject :=
  ⟨"25544", "ISS (ZARYA)", "satellite", "LEO", 408, 51.6, (0, 0, EARTH_RADIUS + 408),
    7.66, 0, []⟩

theorem c1_radius_invariant_witness :
    mag (random_position 408 0 0) = EARTH_RADIUS + 408 ∧
    mag ((runTicks [⟨60, fun _ => 0, 0⟩] [c1WitnessObj]).getD 0 default).position
      = EARTH_RADIUS + ((runTicks [⟨60, fun _ => 0, 0⟩] [c1WitnessObj]).getD 0 default).altitude := by
  constructor
  · exact c1_radius_invariant.1 408 0 0 (by norm_num [EARTH_RADIUS])
  · refine c1_radius_invariant.2.2 [⟨60, fun _ => 0, 0⟩] [c1WitnessObj] 0 (by simp) ?_
    show mag ((0 : ℝ), (0 : ℝ), EARTH_RADIUS + 408) = EARTH_RADIUS + 408
    unfold mag
    have h0 : (0 : ℝ) ≤ EARTH_RADIUS + 408 := by norm_num [EARTH_RADIUS]
    simp [Real.sqrt_sq_eq_abs, abs_of_nonneg h0]

/-- C2: `_calculate_risk_level` is a pure function of
`(distance, time_to_conjunction)` following the three-tier table with strict
inequalities, including at the boundary values. -/
theorem c2_risk_classification :
    (∀ d t : ℝ,
      (calculate_risk_level d t = "High" ↔ d < 20 ∧ t < 2) ∧
      (calculate_risk_level d t = "Medium" ↔ ¬(d < 20 ∧ t < 2) ∧ (d < 50 ∧ t < 12)) ∧
      (calculate_risk_level d t = "Low" ↔ ¬(d < 20 ∧ t < 2) ∧ ¬(d < 50 ∧ t < 12))) ∧
    calculate_risk_level 19.99 1.99 = "High" ∧
    calculate_risk_level 20 2 ≠ "High" := by
  refine ⟨fun d t => ?_, ?_, ?_⟩
  · by_cases h1 : d < 20 ∧ t < 2 <;> by_cases h2 : d < 50 ∧ t < 12 <;>
      simp [calculate_risk_level, h1, h2]
  · have h1 : (19.99 : ℝ) < 20 ∧ (1.99 : ℝ) < 2 := by norm_num
    simp [calculate_risk_level, h1]
  · have h1 : ¬((20 : ℝ) < 20 ∧ (2 : ℝ) < 2) := by norm_num
    have h2 : (20 : ℝ) < 50 ∧ (2 : ℝ) < 12 := by norm_num
    simp [calculate_risk_level, h1, h2]

/-- An alert record as built by `OrbitPropagator._generate_alert`:
`id = len(self.alerts) + 1`, the creation timestamp, and the two
participating object ids (the free-text `message` and the constant
`severity = "high"` carry no further state and are omitted). -/
structure Alert where
  id : ℕ
  timestamp : ℚ
  object_ids : String × String
deriving DecidableEq

/-- `OrbitPropagator._generate_alert`: append the new alert, then keep only
the last 100 entries (`self.alerts = self.alerts[-100:]` when the length
exceeds 100). -/
def generate_alert (alerts : List Alert) (now : ℚ) (id1 id2 : String) : List Alert :=
  let alert : Alert := ⟨alerts.length + 1, now, (id1, id2)⟩
  let alerts' := alerts ++ [alert]
  if alerts'.length > 100 then alerts'.drop (alerts'.length - 100) else alerts'

/-- C6: the alert log is bounded by 100 entries; below the cap an emission
is a plain append, and at the cap the oldest entry is evicted while the
newest is appended (FIFO). -/
theorem c6_alert_log_bounded (alerts : List Alert) (now : ℚ) (id1 id2 : String)
    (h : alerts.length ≤ 100) :
    (generate_alert alerts now id1 id2).length ≤ 100 ∧
    (alerts.length < 100 →
      generate_alert alerts now id1 id2
        = alerts ++ [⟨alerts.length + 1, now, (id1, id2)⟩]) ∧
    (alerts.length = 100 →
      generate_alert alerts now id1 id2
        = alerts.drop 1 ++ [⟨alerts.length + 1, now, (id1, id2)⟩]) := by
  refine ⟨?_, fun hlt => ?_, fun heq => ?_⟩
  · by_cases hlt : alerts.length + 1 > 100
    · have hc : (alerts ++ [(⟨alerts.length + 1, now, (id1, id2)⟩ : Alert)]).length > 100 := by
        simpa using hlt
      simp only [generate_alert, if_pos hc]
      simp
      omega
    · have hc : ¬ (alerts ++ [(⟨alerts.length + 1, now, (id1, id2)⟩ : Alert)]).length > 100 := by
        simpa using hlt
      simp only [generate_alert, if_neg hc]
      simp
      omega
  · have hc : ¬ (alerts ++ [(⟨alerts.length + 1, now, (id1, id2)⟩ : Alert)]).length > 100 := by
      simp
      omega
    simp only [generate_alert, if_neg hc]
  · have hc : (alerts ++ [(⟨alerts.length + 1, now, (id1, id2)⟩ : Alert)]).length > 100 := by
      simp
      omega
    simp only [generate_alert, if_pos hc]
    rw [List.length_append]
    rw [List.drop_append_of_le_length (by simp [heq])]
    congr 1
    simp [heq]

/-- One alert emission with fixed filler timestamp and object ids, used to
iterate `_generate_alert` and observe the assigned ids. -/
def genStep (alerts : List Alert) : List Alert := generate_alert alerts 0 "25544" "48274"

theorem length_genStep (l : List Alert) : (genStep l).length = min (l.length + 1) 100 := by
  by_cases hl : l.length + 1 > 100
  · have hc : (l ++ [(⟨l.length + 1, 0, ("25544", "48274")⟩ : Alert)]).length > 100 := by
      simpa using hl
    simp only [genStep, generate_alert, if_pos hc]
    simp
    omega
  · have hc : ¬ (l ++ [(⟨l.length + 1, 0, ("25544", "48274")⟩ : Alert)]).length > 100 := by
      simpa using hl
    simp only [genStep, generate_alert, if_neg hc]
    simp
    omega

theorem length_genStep_iterate (n : ℕ) : (genStep^[n] []).length = min n 100 := by
  induction n with
  | zero => simp
  | succ k ih =>
    rw [Function.iterate_succ_apply', length_genStep, ih]
    omega

theorem genStep_ids_below_cap (n : ℕ) (h : n ≤ 100) :
    (genStep^[n] []).map Alert.id = List.range' 1 n := by
  induction n with
  | zero => simp
  | succ k ih =>
    have hk : k ≤ 100 := Nat.le_of_succ_le h
    have hk' : k < 100 := by omega
    have hlen : (genStep^[k] []).length = k := by
      rw [length_genStep_iterate]
      omega
    have hstep : genStep (genStep^[k] [])
        = (genStep^[k] []) ++ [⟨k + 1, 0, ("25544", "48274")⟩] := by
      have hc : ¬ ((genStep^[k] []) ++
          [(⟨k + 1, 0, ("25544", "48274")⟩ : Alert)]).length > 100 := by
        simp [hlen]
        omega
      simp only [genStep, generate_alert, hlen, if_neg hc]
    rw [Function.iterate_succ_apply', hstep, List.map_append, ih hk]
    simp [List.range'_concat, Nat.add_comm]

set_option maxRecDepth 40000 in
/-- C4 counterexample: iterating `_generate_alert` 102 times from an empty
log assigns the id 101 twice (the 101st and the 102nd alert), so alert ids
are neither unique nor monotonically increasing once the 100-entry cap has
been reached. -/
theorem c4_alert_id_reuse_counterexample :
    ((genStep^[102] []).map Alert.id).count 101 = 2 ∧
    ¬ ((genStep^[102] []).map Alert.id).Nodup := by decide

/-- C4 amended: the id assigned at creation is `len(alerts) + 1`.  While at
most 100 alerts have ever been emitted the ids are `1, 2, …, n` — strictly
increasing and all distinct — but from the 101st emission on the log stays
at 100 entries, so every further alert is assigned id 101 again: eviction
makes the ids repeat. -/
theorem c4_alert_ids_amended (n : ℕ) :
    (genStep^[n] []).length = min n 100 ∧
    (n ≤ 100 → (genStep^[n] []).map Alert.id = List.range' 1 n) ∧
    (n ≤ 100 → ((genStep^[n] []).map Alert.id).Nodup) ∧
    (100 ≤ n → (genStep^[n + 1] []).map Alert.id
        = ((genStep^[n] []).map Alert.id).drop 1 ++ [101]) := by
  refine ⟨length_genStep_iterate n, genStep_ids_below_cap n, fun h => ?_, fun h => ?_⟩
  · rw [genStep_ids_below_cap n h]
    exact List.nodup_range' 1 n
  · have hlen : (genStep^[n] []).length = 100 := by
      rw [length_genStep_iterate]
      omega
    have hc : ((genStep^[n] []) ++ [(⟨100 + 1, 0, ("25544", "48274")⟩ : Alert)]).length
        > 100 := by
      simp [hlen]
    have hstep : genStep (genStep^[n] [])
        = ((genStep^[n] []).drop 1) ++ [⟨100 + 1, 0, ("25544", "48274")⟩] := by
      simp only [genStep, generate_alert, hlen, if_pos hc]
      have h1 : ((genStep^[n] []) ++ [(⟨100 + 1, 0, ("25544", "48274")⟩ : Alert)]).length - 100
          = 1 := by
        simp [hlen]
      rw [h1, List.drop_append_of_le_length (by rw [hlen]; omega)]
    rw [Function.iterate_succ_apply', hstep, List.map_append, List.map_drop]
    simp

theorem c4_alert_ids_amended_witness :
    (genStep^[5] []).length = min 5 100 ∧
    (genStep^[5] []).map Alert.id = List.range' 1 5 ∧
    ((genStep^[5] []).map Alert.id).Nodup ∧
    (genStep^[101] []).map Alert.id = ((genStep^[100] []).map Alert.id).drop 1 ++ [101] :=
  ⟨(c4_alert_ids_amended 5).1, (c4_alert_ids_amended 5).2.1 (by decide),
    (c4_alert_ids_amended 5).2.2.1 (by decide), (c4_alert_ids_amended 100).2.2.2 (by decide)⟩

/-- One evaluation of the alert branch of `_check_conjunctions` (lines
159–164): the pair's computed risk level, the wall-clock time
`datetime.now()` at that evaluation, and the two object ids. -/
structure ThrottleEvent where
  risk : String
  time : ℚ
  id1 : String
  id2 : String

/-- The alert-relevant mutable state of `OrbitPropagator`: the alert log and
`self.last_alert_time`.  `emitted` is a history variable recording the
timestamp of every emission ever made (it is written exactly when
`_generate_alert` is called and is read by no operation). -/
structure ThrottleState where
  alerts : List Alert
  last_alert_time : ℚ
  emitted : List ℚ

/-- Lines 159–164 of `propagate.py`: if the pair's risk level is `"High"`
and more than 10 seconds have passed since `last_alert_time`, call
`_generate_alert` and set `last_alert_time` to the current time. -/
def check_pair_alert (s : ThrottleState) (e : ThrottleEvent) : ThrottleState :=
  if e.risk = "High" ∧ e.time - s.last_alert_time > 10 then
    { alerts := generate_alert s.alerts e.time e.id1 e.id2
      last_alert_time := e.time
      emitted := s.emitted ++ [e.time] }
  else s

/-- A sequence of alert-branch evaluations (any number of pairs over any
number of ticks, in order). -/
def run_events (s : ThrottleState) (es : List ThrottleEvent) : ThrottleState :=
  es.foldl check_pair_alert s

/-- `OrbitPropagator.__init__` line 66:
`self.last_alert_time = datetime.now() - timedelta(minutes=5)`, where `t0`
is the process start time. -/
def throttle_init (t0 : ℚ) : ThrottleState := ⟨[], t0 - 5 * 60, []⟩

/-- The cooldown invariant: successive emission timestamps are more than 10
seconds apart, and none is later than `last_alert_time`. -/
def GapOK (s : ThrottleState) : Prop :=
  s.emitted.Pairwise (fun a b => 10 < b - a) ∧ ∀ t ∈ s.emitted, t ≤ s.last_alert_time

theorem check_pair_alert_gapOK (s : ThrottleState) (e : ThrottleEvent) (h : GapOK s) :
    GapOK (check_pair_alert s e) := by
  obtain ⟨hp, hle⟩ := h
  unfold check_pair_alert
  split
  case isTrue hc =>
    have hgap : ∀ t ∈ s.emitted, 10 < e.time - t := by
      intro t ht
      have h1 := hle t ht
      have h2 := hc.2
      linarith
    refine ⟨?_, ?_⟩
    · rw [List.pairwise_append]
      exact ⟨hp, by simp, by simpa using hgap⟩
    · intro t ht
      rcases List.mem_append.mp ht with h1 | h2
      · have := hgap t h1
        show t ≤ e.time
        linarith
      · simp only [List.mem_singleton] at h2
        exact le_of_eq h2
  case isFalse hc => exact ⟨hp, hle⟩

theorem run_events_gapOK (es : List ThrottleEvent) :
    ∀ s : ThrottleState, GapOK s → GapOK (run_events s es) := by
  induction es with
  | nil => exact fun s h => h
  | cons e es ih =>
    intro s h
    exact ih (check_pair_alert s e) (check_pair_alert_gapOK s e h)

theorem run_events_emitted_grows (es : List ThrottleEvent) :
    ∀ s : ThrottleState, ∃ rest, (run_events s es).emitted = s.emitted ++ rest := by
  induction es with
  | nil => exact fun s => ⟨[], by simp [run_events]⟩
  | cons e es ih =>
    intro s
    obtain ⟨rest, hrest⟩ := ih (check_pair_alert s e)
    have hgoal : run_events s (e :: es) = run_events (check_pair_alert s e) es := rfl
    by_cases hc : e.risk = "High" ∧ e.time - s.last_alert_time > 10
    · have hem : (check_pair_alert s e).emitted = s.emitted ++ [e.time] := by
        unfold check_pair_alert
        rw [if_pos hc]
      exact ⟨[e.time] ++ rest, by rw [hgoal, hrest, hem, List.append_assoc]⟩
    · have hem : check_pair_alert s e = s := by
        unfold check_pair_alert
        rw [if_neg hc]
      exact ⟨rest, by rw [hgoal, hrest, hem]⟩

theorem run_events_no_high (es : List ThrottleEvent) (h : ∀ e ∈ es, e.risk ≠ "High") :
    ∀ s : ThrottleState, run_events s es = s := by
  induction es with
  | nil => exact fun s => rfl
  | cons e es ih =>
    intro s
    have hstep : check_pair_alert s e = s := by
      unfold check_pair_alert
      rw [if_neg]
      intro hc
      exact h e (List.mem_cons_self e es) hc.1
    show run_events (check_pair_alert s e) es = s
    rw [hstep]
    exact ih (fun x hx => h x (List.mem_cons_of_mem e hx)) s

/-- C3: with `last_alert_time` initialised to 5 minutes before the process
start `t0`, (a) the emission timestamps of any run are successively more
than 10 seconds apart — in particular no two alerts are ever emitted less
than 10 seconds apart, however many qualifying pairs occur in a tick, since
the throttle state is global — and (b) the first High-risk evaluation, at
any time from `t0` on, is never suppressed: its timestamp is emitted. -/
theorem c3_alert_cooldown (t0 : ℚ) :
    (∀ es : List ThrottleEvent,
      (run_events (throttle_init t0) es).emitted.Pairwise (fun a b => 10 < b - a)) ∧
    (∀ (pre : List ThrottleEvent) (e : ThrottleEvent) (post : List ThrottleEvent),
      (∀ x ∈ pre, x.risk ≠ "High") → e.risk = "High" → t0 ≤ e.time →
      e.time ∈ (run_events (throttle_init t0) (pre ++ e :: post)).emitted) := by
  constructor
  · intro es
    have hinit : GapOK (throttle_init t0) := ⟨by simp [throttle_init], by simp [throttle_init]⟩
    exact (run_events_gapOK es (throttle_init t0) hinit).1
  · intro pre e post hpre he ht
    have hpre_run : run_events (throttle_init t0) pre = throttle_init t0 :=
      run_events_no_high pre hpre (throttle_init t0)
    have hfold : run_events (throttle_init t0) (pre ++ e :: post)
        = run_events (check_pair_alert (run_events (throttle_init t0) pre) e) post := by
      unfold run_events
      rw [List.foldl_append]
      rfl
    have hcond : e.risk = "High" ∧ e.time - (throttle_init t0).last_alert_time > 10 := by
      refine ⟨he, ?_⟩
      show e.time - (t0 - 5 * 60) > 10
      linarith
    have hs1 : (check_pair_alert (throttle_init t0) e).emitted = [e.time] := by
      unfold check_pair_alert
      rw [if_pos hcond]
      simp [throttle_init]
    obtain ⟨rest, hrest⟩ :=
      run_events_emitted_grows post (check_pair_alert (throttle_init t0) e)
    rw [hfold, hpre_run, hrest, hs1]
    simp

theorem c3_alert_cooldown_witness :
    (run_events (throttle_init 0)
      ([⟨"Low", 1, "48274", "25544"⟩] ++ (⟨"High", 2, "25544", "48274"⟩ : ThrottleEvent) ::
        [⟨"High", 5, "25544", "33692"⟩])).emitted.Pairwise (fun a b => 10 < b - a) ∧
    (2 : ℚ) ∈ (run_events (throttle_init 0)
      ([⟨"Low", 1, "48274", "25544"⟩] ++ (⟨"High", 2, "25544", "48274"⟩ : ThrottleEvent) ::
        [⟨"High", 5, "25544", "33692"⟩])).emitted :=
  ⟨(c3_alert_cooldown 0).1 _,
   (c3_alert_cooldown 0).2 [⟨"Low", 1, "48274", "25544"⟩] ⟨"High", 2, "25544", "48274"⟩
     [⟨"High", 5, "25544", "33692"⟩] (by decide) rfl (by decide)⟩

/-- One iteration of the body of `update_orbits_task` in `main.py`.  The
call `propagator.update()` is outside any exception handler, so a raised
exception propagates and the loop stops; each `client.send_json` is wrapped
in `try/except`, where a failure only removes that client.  `upd` is the
outcome of `propagator.update()` for this tick, and `sendOk c` tells
whether delivery to client `c` succeeds this tick. -/
def tick_step (upd : Except String Unit) (sendOk : ℕ → Bool) (clients : List ℕ) :
    Except String (List ℕ) :=
  match upd with
  | .error e => .error e
  | .ok _ => .ok (clients.filter fun c => sendOk c)

/-- The `while True` loop of `update_orbits_task`, run over a finite list of
tick outcomes: an `.error` result means the background task has died with
that exception before exhausting the ticks. -/
def update_orbits_task : List (Except String Unit × (ℕ → Bool)) → List ℕ →
    Except String (List ℕ)
  | [], clients => .ok clients
  | t :: rest, clients =>
    match tick_step t.1 t.2 clients with
    | .error e => .error e
    | .ok cs => update_orbits_task rest cs

/-- C5 counterexample: a single tick whose `propagator.update()` raises
terminates the whole scheduler loop with that exception — the remaining
ticks (here one more, which would have succeeded) are never run, so a
per-tick error is not logged-and-survived but fatal to the loop. -/
theorem c5_tick_failure_counterexample :
    update_orbits_task
      [(Except.error "boom", fun _ => true), (Except.ok (), fun _ => true)] [0, 1]
      = Except.error "boom" := rfl

/-- C5 amended: only broadcast failures are contained.  If every tick's
`propagator.update()` succeeds, the loop completes no matter which client
deliveries fail (failed clients are merely removed); but an exception from
`propagator.update()` itself is uncaught and terminates the loop. -/
theorem c5_loop_amended (ticks : List (Except String Unit × (ℕ → Bool)))
    (h : ∀ t ∈ ticks, t.1 = Except.ok ()) :
    ∀ clients : List ℕ, ∃ cs, update_orbits_task ticks clients = Except.ok cs := by
  induction ticks with
  | nil => exact fun clients => ⟨clients, rfl⟩
  | cons t rest ih =>
    intro clients
    have ht : t.1 = Except.ok () := h t (List.mem_cons_self t rest)
    have hrest : ∀ x ∈ rest, x.1 = Except.ok () :=
      fun x hx => h x (List.mem_cons_of_mem t hx)
    obtain ⟨cs, hcs⟩ := ih hrest (clients.filter fun c => t.2 c)
    refine ⟨cs, ?_⟩
    show (match tick_step t.1 t.2 clients with
      | .error e => .error e
      | .ok cs => update_orbits_task rest cs) = Except.ok cs
    rw [ht]
    exact hcs

theorem c5_loop_amended_witness :
    ∃ cs, update_orbits_task
      [(Except.ok (), fun _ => false), (Except.ok (), fun _ => true)] [0, 1]
      = Except.ok cs :=
  c5_loop_amended [(Except.ok (), fun _ => false), (Except.ok (), fun _ => true)]
    (by
      intro t ht
      simp only [List.mem_cons, List.not_mem_nil, or_false] at ht
      rcases ht with rfl | rfl <;> rfl) [0, 1]

/-- Reference semantics of the alert log, for the snapshot/aliasing claim:
a heap of Python list objects (indexed by `ℕ` references, holding alert
ids), the reference currently bound to `self.alerts`, and an allocation
counter.  `list.append` mutates the list behind the reference in place;
the slicing rebind `self.alerts = self.alerts[-100:]` allocates a fresh
list object and rebinds the attribute. -/
structure AlertsHeap where
  store : ℕ → List ℕ
  alertsRef : ℕ
  nextRef : ℕ

/-- The state right after `OrbitPropagator.__init__`: `self.alerts = []`. -/
def initHeap : AlertsHeap := ⟨fun _ => [], 0, 1⟩

/-- `OrbitPropagator.get_alerts` returns `self.alerts` itself — the
reference, not a copy. -/
def get_alerts (s : AlertsHeap) : ℕ := s.alertsRef

/-- Dereference: what a holder of reference `r` observes in state `s`. -/
def readRef (s : AlertsHeap) (r : ℕ) : List ℕ := s.store r

/-- `OrbitPropagator._generate_alert` under reference semantics:
`self.alerts.append(alert)` mutates the referenced list in place; when the
length then exceeds 100, `self.alerts = self.alerts[-100:]` allocates a new
list and rebinds `self.alerts` to it (the old list object keeps its prior
contents for any other holder of the reference). -/
def generate_alert_heap (s : AlertsHeap) : AlertsHeap :=
  let cur := s.store s.alertsRef
  let appended := cur ++ [cur.length + 1]
  let store1 : ℕ → List ℕ := fun r => if r = s.alertsRef then appended else s.store r
  if appended.length > 100 then
    { store := fun r => if r = s.nextRef then appended.drop (appended.length - 100) else store1 r
      alertsRef := s.nextRef
      nextRef := s.nextRef + 1 }
  else
    { s with store := store1 }

/-- C9 counterexample: the value `get_alerts` hands to a reader is a live
reference, not an isolated snapshot — after one more alert emission the
list observed through the previously returned handle has changed (from `[]`
to `[1]`), falsifying "subsequent tick mutations never alter a previously
returned snapshot". -/
theorem c9_snapshot_aliasing_counterexample :
    readRef (generate_alert_heap initHeap) (get_alerts initHeap)
      ≠ readRef initHeap (get_alerts initHeap) := by decide

/-- C9 amended: `get_alerts` returns a reference into the live alert log.
Whenever the log holds fewer than 100 entries, an emission appends in
place, so the new alert becomes visible through any handle previously
returned by `get_alerts`. -/
theorem c9_get_alerts_amended (s : AlertsHeap)
    (h : (s.store s.alertsRef).length < 100) :
    readRef (generate_alert_heap s) (get_alerts s)
      = readRef s (get_alerts s) ++ [(readRef s (get_alerts s)).length + 1] := by
  have hc : ¬ ((s.store s.alertsRef) ++ [(s.store s.alertsRef).length + 1]).length > 100 := by
    simp
    omega
  simp only [generate_alert_heap, if_neg hc, readRef, get_alerts, if_pos rfl]
  simp

theorem c9_get_alerts_amended_witness :
    readRef (generate_alert_heap initHeap) (get_alerts initHeap)
      = readRef initHeap (get_alerts initHeap)
        ++ [(readRef initHeap (get_alerts initHeap)).length + 1] :=
  c9_get_alerts_amended initHeap (by decide)

theorem mem_riskObjectsFor {objs : List SpaceObject} {i : ℕ} {e : RiskEntry} :
    e ∈ riskObjectsFor objs i ↔
      ∃ a b, a < b ∧ b < objs.length ∧
        calculate_distance (objs.getD a default).position
          (objs.getD b default).position < 100 ∧
        ((a = i ∧ e = riskData (objs.getD a default) (objs.getD b default)) ∨
         (b = i ∧ a ≠ i ∧ e = riskData (objs.getD b default) (objs.getD a default))) := by
  unfold riskObjectsFor
  rw [List.mem_filterMap]
  constructor
  · rintro ⟨⟨a, b⟩, hab, hf⟩
    obtain ⟨hlt, hbn⟩ := mem_allPairs.mp hab
    refine ⟨a, b, hlt, hbn, ?_⟩
    dsimp only at hf
    by_cases hd : calculate_distance (objs.getD a default).position
        (objs.getD b default).position < 100
    · rw [if_pos hd] at hf
      by_cases hai : a = i
      · rw [if_pos hai] at hf
        exact ⟨hd, Or.inl ⟨hai, (Option.some.injEq .. ▸ hf).symm⟩⟩
      · rw [if_neg hai] at hf
        by_cases hbi : b = i
        · rw [if_pos hbi] at hf
          exact ⟨hd, Or.inr ⟨hbi, hai, (Option.some.injEq .. ▸ hf).symm⟩⟩
        · rw [if_neg hbi] at hf
          exact absurd hf (by simp)
    · rw [if_neg hd] at hf
      exact absurd hf (by simp)
  · rintro ⟨a, b, hlt, hbn, hd, hcase⟩
    refine ⟨(a, b), mem_allPairs.mpr ⟨hlt, hbn⟩, ?_⟩
    dsimp only
    rw [if_pos hd]
    rcases hcase with ⟨hai, he⟩ | ⟨hbi, hai, he⟩
    · rw [if_pos hai, he]
    · rw [if_neg hai, if_pos hbi, he]

theorem getD_id_inj {objs : List SpaceObject} (hnod : (objs.map SpaceObject.id).Nodup)
    {a b : ℕ} (ha : a < objs.length) (hb : b < objs.length)
    (h : (objs.getD a default).id = (objs.getD b default).id) : a = b := by
  have ha' : a < (objs.map SpaceObject.id).length := by simpa using ha
  have hb' : b < (objs.map SpaceObject.id).length := by simpa using hb
  have h1 : (objs.map SpaceObject.id)[a] = (objs.getD a default).id := by
    rw [List.getElem_map, List.getD_eq_getElem objs default ha]
  have h2 : (objs.map SpaceObject.id)[b] = (objs.getD b default).id := by
    rw [List.getElem_map, List.getD_eq_getElem objs default hb]
  exact (@List.Nodup.getElem_inj_iff _ _ hnod a ha' b hb').mp (h1.trans (h.trans h2.symm))

theorem calculate_distance_comm (p q : ℝ × ℝ × ℝ) :
    calculate_distance p q = calculate_distance q p := by
  unfold calculate_distance
  congr 1
  ring

theorem mem_detector_foldl (objs : List SpaceObject) (now : ℝ) :
    ∀ (l : List (ℕ × ℕ)) (st : ℝ × List (ℕ × ℕ)) (p : ℕ × ℕ),
      p ∈ (l.foldl (detectorAlertStep objs now) st).2 →
      p ∈ st.2 ∨ (p ∈ l ∧
        pairDistance (objs.getD p.1 default) (objs.getD p.2 default) < 100)
  | [], _, _, h => Or.inl h
  | ab :: l, st, p, h => by
    rcases mem_detector_foldl objs now l (detectorAlertStep objs now st ab) p h with h1 | h2
    · unfold detectorAlertStep at h1
      by_cases hc : pairDistance (objs.getD ab.1 default) (objs.getD ab.2 default) < 100 ∧
          calculate_risk_level (pairDistance (objs.getD ab.1 default) (objs.getD ab.2 default))
            (pairTTC (objs.getD ab.1 default) (objs.getD ab.2 default)) = "High" ∧
          now - st.1 > 10
      · rw [if_pos hc] at h1
        rcases List.mem_append.mp h1 with hL | hR
        · exact Or.inl hL
        · have hp : p = ab := by simpa using hR
          subst hp
          exact Or.inr ⟨List.mem_cons_self p l, hc.1⟩
      · rw [if_neg hc] at h1
        exact Or.inl h1
    · exact Or.inr ⟨List.mem_cons_of_mem ab h2.1, h2.2⟩

theorem mem_detectorAlertPairs {objs : List SpaceObject} {lastAlert now : ℝ}
    {p : ℕ × ℕ} (hp : p ∈ detectorAlertPairs objs lastAlert now) :
    pairDistance (objs.getD p.1 default) (objs.getD p.2 default) < 100 := by
  rcases mem_detector_foldl objs now (allPairs objs.length) (lastAlert, []) p hp with h | h
  · exact absurd h (List.not_mem_nil p)
  · exact h.2

theorem calculate_distance_self (p : ℝ × ℝ × ℝ) : calculate_distance p p = 0 := by
  unfold calculate_distance
  simp

/-- Characterisation of an entry naming the object at index `j` inside the
risk list of the object at index `i` (ids assumed pairwise distinct, as in
the catalog): such an entry is exactly `riskData` of the two objects, and it
exists only when their distance is below 100 km. -/
theorem riskEntry_naming {objs : List SpaceObject}
    (hnod : (objs.map SpaceObject.id).Nodup) {i j : ℕ}
    (hi : i < objs.length) (hj : j < objs.length) {e : RiskEntry}
    (he : e ∈ riskObjectsFor objs i)
    (hname : e.object_id = (objs.getD j default).id) :
    e = riskData (objs.getD i default) (objs.getD j default) ∧ i ≠ j ∧
    calculate_distance (objs.getD i default).position
      (objs.getD j default).position < 100 := by
  obtain ⟨a, b, hab, hbn, hd, hcase⟩ := mem_riskObjectsFor.mp he
  have han : a < objs.length := lt_trans hab hbn
  rcases hcase with ⟨hai, hee⟩ | ⟨hbi, hai, hee⟩
  · have hob : (objs.getD b default).id = (objs.getD j default).id := by
      rw [hee] at hname
      simpa [riskData] using hname
    have hbj : b = j := getD_id_inj hnod hbn hj hob
    subst hbj
    subst hai
    exact ⟨hee, Nat.ne_of_lt hab, hd⟩
  · have hoa : (objs.getD a default).id = (objs.getD j default).id := by
      rw [hee] at hname
      simpa [riskData] using hname
    have haj : a = j := getD_id_inj hnod han hj hoa
    subst haj
    subst hbi
    refine ⟨hee, Ne.symm (Nat.ne_of_lt hab), ?_⟩
    rw [calculate_distance_comm]
    exact hd

/-- Conversely, a pair of distinct objects closer than 100 km produces the
`riskData` entry on the first object's risk list. -/
theorem riskEntry_present {objs : List SpaceObject} {i j : ℕ}
    (hi : i < objs.length) (hj : j < objs.length) (hij : i ≠ j)
    (hd : calculate_distance (objs.getD i default).position
      (objs.getD j default).position < 100) :
    riskData (objs.getD i default) (objs.getD j default) ∈ riskObjectsFor objs i := by
  rcases Nat.lt_or_ge i j with hlt | hge
  · exact mem_riskObjectsFor.mpr ⟨i, j, hlt, hj, hd, Or.inl ⟨rfl, rfl⟩⟩
  · have hlt : j < i := lt_of_le_of_ne hge (Ne.symm hij)
    refine mem_riskObjectsFor.mpr ⟨j, i, hlt, hi, ?_, Or.inr ⟨rfl, Ne.symm hij, rfl⟩⟩
    rw [calculate_distance_comm]
    exact hd

/-- C7: a pair of catalog objects at distance ≥ 100 km produces no
risk-peer entry on either side (no entry of either object names the other)
and is never passed to `_generate_alert`, whatever the velocities, the
cooldown state and the clock. -/
theorem c7_far_pairs_no_risk (objs : List SpaceObject)
    (hnod : (objs.map SpaceObject.id).Nodup) (i j : ℕ)
    (hi : i < objs.length) (hj : j < objs.length)
    (hfar : 100 ≤ calculate_distance (objs.getD i default).position
      (objs.getD j default).position)
    (lastAlert now : ℝ) :
    (∀ e ∈ riskObjectsFor objs i, e.object_id ≠ (objs.getD j default).id) ∧
    (∀ e ∈ riskObjectsFor objs j, e.object_id ≠ (objs.getD i default).id) ∧
    (i, j) ∉ detectorAlertPairs objs lastAlert now ∧
    (j, i) ∉ detectorAlertPairs objs lastAlert now := by
  refine ⟨?_, ?_, ?_, ?_⟩
  · intro e he hname
    obtain ⟨_, _, hd⟩ := riskEntry_naming hnod hi hj he hname
    linarith
  · intro e he hname
    obtain ⟨_, _, hd⟩ := riskEntry_naming hnod hj hi he hname
    rw [calculate_distance_comm] at hd
    linarith
  · intro hmem
    have hd := mem_detectorAlertPairs hmem
    unfold pairDistance at hd
    simp only at hd
    linarith
  · intro hmem
    have hd := mem_detectorAlertPairs hmem
    unfold pairDistance at hd
    simp only at hd
    rw [calculate_distance_comm] at hd
    linarith

/-- Two concrete catalog objects 200 km apart, for the witnesses. -/
noncomputable def witnessObjA : SpaceObject :=
  ⟨"25544", "ISS (ZARYA)", "satellite", "LEO", 408, 51.6, (0, 0, 0), 7.66, 0, []⟩

noncomputable def witnessObjB : SpaceObject :=
  ⟨"48274", "COSMOS 2251 DEB", "debris", "LEO", 385, 74.2, (200, 0, 0), 7.7, 0, []⟩

theorem witness_distance_200 :
    calculate_distance witnessObjA.position witnessObjB.position = 200 := by
  have h0 : calculate_distance witnessObjA.position witnessObjB.position
      = Real.sqrt (((0 : ℝ) - 200) ^ 2 + ((0 : ℝ) - 0) ^ 2 + ((0 : ℝ) - 0) ^ 2) := rfl
  have h1 : ((0 : ℝ) - 200) ^ 2 + ((0 : ℝ) - 0) ^ 2 + ((0 : ℝ) - 0) ^ 2 = 200 ^ 2 := by
    norm_num
  rw [h0, h1]
  exact Real.sqrt_sq (by norm_num)

theorem c7_far_pairs_no_risk_witness :
    (∀ e ∈ riskObjectsFor [witnessObjA, witnessObjB] 0,
      e.object_id ≠ ([witnessObjA, witnessObjB].getD 1 default).id) ∧
    (∀ e ∈ riskObjectsFor [witnessObjA, witnessObjB] 1,
      e.object_id ≠ ([witnessObjA, witnessObjB].getD 0 default).id) ∧
    (0, 1) ∉ detectorAlertPairs [witnessObjA, witnessObjB] 0 60 ∧
    (1, 0) ∉ detectorAlertPairs [witnessObjA, witnessObjB] 0 60 := by
  refine c7_far_pairs_no_risk [witnessObjA, witnessObjB] ?_ 0 1 (by simp) (by simp) ?_ 0 60
  · show ([witnessObjA, witnessObjB].map SpaceObject.id).Nodup
    simp [witnessObjA, witnessObjB]
  · show 100 ≤ calculate_distance witnessObjA.position witnessObjB.position
    rw [witness_distance_200]
    norm_num

theorem pairDistance_comm (o1 o2 : SpaceObject) :
    pairDistance o1 o2 = pairDistance o2 o1 :=
  calculate_distance_comm o1.position o2.position

theorem pairRelVelocity_comm (o1 o2 : SpaceObject) :
    pairRelVelocity o1 o2 = pairRelVelocity o2 o1 :=
  abs_sub_comm o1.velocity o2.velocity

theorem pairTTC_comm (o1 o2 : SpaceObject) : pairTTC o1 o2 = pairTTC o2 o1 := by
  unfold pairTTC
  rw [pairDistance_comm, pairRelVelocity_comm]

/-- C10: after a detection pass the risk-peer relation is symmetric with
identical data: with pairwise-distinct catalog ids, object `i` carries an
entry naming object `j` exactly when object `j` carries one naming `i`, and
any two such entries agree on distance, relative velocity, time to
conjunction and risk level. -/
theorem c10_risk_symmetry (objs : List SpaceObject)
    (hnod : (objs.map SpaceObject.id).Nodup) (i j : ℕ)
    (hi : i < objs.length) (hj : j < objs.length) :
    ((∃ e ∈ riskObjectsFor objs i, e.object_id = (objs.getD j default).id) ↔
      (∃ e ∈ riskObjectsFor objs j, e.object_id = (objs.getD i default).id)) ∧
    (∀ e ∈ riskObjectsFor objs i, e.object_id = (objs.getD j default).id →
      ∀ e' ∈ riskObjectsFor objs j, e'.object_id = (objs.getD i default).id →
        e.distance_km = e'.distance_km ∧ e.velocity_kmps = e'.velocity_kmps ∧
        e.time_to_conjunction = e'.time_to_conjunction ∧
        e.risk_level = e'.risk_level) := by
  constructor
  · constructor
    · rintro ⟨e, he, hname⟩
      obtain ⟨hee, hij, hd⟩ := riskEntry_naming hnod hi hj he hname
      refine ⟨riskData (objs.getD j default) (objs.getD i default),
        riskEntry_present hj hi (Ne.symm hij) ?_, ?_⟩
      · rw [calculate_distance_comm]
        exact hd
      · simp [riskData]
    · rintro ⟨e, he, hname⟩
      obtain ⟨hee, hij, hd⟩ := riskEntry_naming hnod hj hi he hname
      refine ⟨riskData (objs.getD i default) (objs.getD j default),
        riskEntry_present hi hj (Ne.symm hij) ?_, ?_⟩
      · rw [calculate_distance_comm]
        exact hd
      · simp [riskData]
  · intro e he hname e' he' hname'
    obtain ⟨hee, hij, hd⟩ := riskEntry_naming hnod hi hj he hname
    obtain ⟨hee', hij', hd'⟩ := riskEntry_naming hnod hj hi he' hname'
    subst hee
    subst hee'
    refine ⟨?_, ?_, ?_, ?_⟩
    · simp only [riskData]
      rw [pairDistance_comm]
    · simp only [riskData]
      rw [pairRelVelocity_comm]
    · simp only [riskData]
      rw [pairTTC_comm]
    · simp only [riskData]
      rw [pairDistance_comm, pairTTC_comm]

theorem c10_risk_symmetry_witness :
    ((∃ e ∈ riskObjectsFor [witnessObjA, witnessObjB] 0,
        e.object_id = ([witnessObjA, witnessObjB].getD 1 default).id) ↔
      (∃ e ∈ riskObjectsFor [witnessObjA, witnessObjB] 1,
        e.object_id = ([witnessObjA, witnessObjB].getD 0 default).id)) ∧
    (∀ e ∈ riskObjectsFor [witnessObjA, witnessObjB] 0,
      e.object_id = ([witnessObjA, witnessObjB].getD 1 default).id →
      ∀ e' ∈ riskObjectsFor [witnessObjA, witnessObjB] 1,
        e'.object_id = ([witnessObjA, witnessObjB].getD 0 default).id →
        e.distance_km = e'.distance_km ∧ e.velocity_kmps = e'.velocity_kmps ∧
        e.time_to_conjunction = e'.time_to_conjunction ∧
        e.risk_level = e'.risk_level) :=
  c10_risk_symmetry [witnessObjA, witnessObjB]
    (by simp [witnessObjA, witnessObjB]) 0 1 (by simp) (by simp)

/-- `OrbitPropagator.get_object_by_id`: linear scan by id, returning a
snapshot of the first match, `None` otherwise. -/
def get_object_by_id (objs : List SpaceObject) (object_id : String) : Option SpaceObject :=
  objs.find? fun o => o.id == object_id

/-- The route `GET /objects/{object_id}` of `main.py`: 404 when
`get_object_by_id` returns `None`, the snapshot otherwise. -/
def get_object_route (objs : List SpaceObject) (object_id : String) :
    Except ℕ SpaceObject :=
  match get_object_by_id objs object_id with
  | none => .error 404
  | some o => .ok o

/-- The fields of a space object that the model never mutates. -/
def immutableFields (o : SpaceObject) : String × String × String := (o.id, o.name, o.type)

theorem find?_map_immutable : ∀ (l₁ l₂ : List SpaceObject),
    l₁.map immutableFields = l₂.map immutableFields → ∀ oid : String,
    Option.map immutableFields (get_object_by_id l₁ oid)
      = Option.map immutableFields (get_object_by_id l₂ oid)
  | [], [], _, _ => rfl
  | [], _ :: _, h, _ => absurd h (by simp)
  | _ :: _, [], h, _ => absurd h (by simp)
  | a :: l₁, b :: l₂, h, oid => by
    simp only [List.map_cons, List.cons.injEq] at h
    obtain ⟨hhead, htail⟩ := h
    have hid : a.id = b.id := congrArg Prod.fst hhead
    unfold get_object_by_id
    cases hc : a.id == oid with
    | true =>
      have hc' : (b.id == oid) = true := by
        rw [← hid]
        exact hc
      rw [show List.find? (fun o => o.id == oid) (a :: l₁) = some a by
          simp [List.find?, hc],
        show List.find? (fun o => o.id == oid) (b :: l₂) = some b by
          simp [List.find?, hc']]
      simpa using hhead
    | false =>
      have hc' : (b.id == oid) = false := by
        rw [← hid]
        exact hc
      rw [show List.find? (fun o => o.id == oid) (a :: l₁)
            = List.find? (fun o => o.id == oid) l₁ by
          simp [List.find?, hc],
        show List.find? (fun o => o.id == oid) (b :: l₂)
            = List.find? (fun o => o.id == oid) l₂ by
          simp [List.find?, hc']]
      exact find?_map_immutable l₁ l₂ htail oid

theorem updateObjects_map_immutable (inp : TickInput) :
    ∀ (l : List SpaceObject) (k : ℕ),
      (updateObjects inp k l).map immutableFields = l.map immutableFields
  | [], _ => rfl
  | o :: rest, k => by
    simp [updateObjects, immutableFields, updateObjects_map_immutable inp rest (k + 1)]

theorem assignRisk_map_immutable (ctx : List SpaceObject) :
    ∀ (l : List SpaceObject) (k : ℕ),
      (assignRisk ctx k l).map immutableFields = l.map immutableFields
  | [], _ => rfl
  | o :: rest, k => by
    simp [assignRisk, immutableFields, assignRisk_map_immutable ctx rest (k + 1)]

theorem updateTick_map_immutable (inp : TickInput) (objs : List SpaceObject) :
    (updateTick inp objs).map immutableFields = objs.map immutableFields := by
  rw [updateTick, check_conjunctions, assignRisk_map_immutable,
    updateObjects_map_immutable]

theorem runTicks_map_immutable :
    ∀ (ins : List TickInput) (objs : List SpaceObject),
      (runTicks ins objs).map immutableFields = objs.map immutableFields
  | [], _ => rfl
  | inp :: ins, objs => by
    rw [runTicks_cons, runTicks_map_immutable ins (updateTick inp objs),
      updateTick_map_immutable]

/-- C8: an id absent from the catalog is still absent after any number of
ticks and the route answers 404; a known id keeps resolving, across any
number of ticks, to a snapshot whose immutable fields (id, name, kind)
equal the values it was created with. -/
theorem c8_get_object_by_id (objs : List SpaceObject) (oid : String)
    (ins : List TickInput) :
    ((∀ o ∈ objs, o.id ≠ oid) →
      get_object_route (runTicks ins objs) oid = Except.error 404) ∧
    (∀ o0, get_object_by_id objs oid = some o0 →
      ∃ o', get_object_by_id (runTicks ins objs) oid = some o' ∧
        o'.id = o0.id ∧ o'.name = o0.name ∧ o'.type = o0.type) := by
  have hfind := find?_map_immutable (runTicks ins objs) objs
    (runTicks_map_immutable ins objs) oid
  constructor
  · intro habs
    have hnone : get_object_by_id objs oid = none := by
      apply List.find?_eq_none.mpr
      intro o ho
      simpa using habs o ho
    rw [hnone] at hfind
    have hnone' : get_object_by_id (runTicks ins objs) oid = none := by
      rcases hmatch : get_object_by_id (runTicks ins objs) oid with _ | o'
      · rfl
      · rw [hmatch] at hfind
        exact absurd hfind (by simp)
    unfold get_object_route
    rw [hnone']
  · intro o0 h0
    rcases hmatch : get_object_by_id (runTicks ins objs) oid with _ | o'
    · rw [hmatch, h0] at hfind
      exact absurd hfind (by simp)
    · rw [hmatch, h0] at hfind
      simp only [Option.map_some'] at hfind
      have himm : immutableFields o' = immutableFields o0 := by
        simpa using hfind
      refine ⟨o', rfl, ?_, ?_, ?_⟩
      · exact congrArg (fun t => t.1) himm
      · exact congrArg (fun t => t.2.1) himm
      · exact congrArg (fun t => t.2.2) himm

theorem c8_get_object_by_id_witness :
    get_object_route (runTicks [⟨60, fun _ => 0, 0⟩] [witnessObjA]) "99999"
      = Except.error 404 ∧
    ∃ o', get_object_by_id (runTicks [⟨60, fun _ => 0, 0⟩] [witnessObjA]) "25544"
        = some o' ∧
      o'.id = witnessObjA.id ∧ o'.name = witnessObjA.name ∧
      o'.type = witnessObjA.type :=
  ⟨(c8_get_object_by_id [witnessObjA] "99999" [⟨60, fun _ => 0, 0⟩]).1
      (by
        intro o ho
        simp only [List.mem_singleton] at ho
        subst ho
        simp [witnessObjA]),
   (c8_get_object_by_id [witnessObjA] "25544" [⟨60, fun _ => 0, 0⟩]).2 witnessObjA rfl⟩

theorem c6_alert_log_bounded_witness :
    (generate_alert (List.replicate 100 (⟨1, 0, ("25544", "48274")⟩ : Alert))
        0 "25544" "48274").length ≤ 100 ∧
    generate_alert (List.replicate 100 (⟨1, 0, ("25544", "48274")⟩ : Alert))
        0 "25544" "48274"
      = (List.replicate 100 (⟨1, 0, ("25544", "48274")⟩ : Alert)).drop 1 ++
        [⟨(List.replicate 100 (⟨1, 0, ("25544", "48274")⟩ : Alert)).length + 1,
          0, ("25544", "48274")⟩] :=
  ⟨(c6_alert_log_bounded (List.replicate 100 ⟨1, 0, ("25544", "48274")⟩)
      0 "25544" "48274" (by simp)).1,
   (c6_alert_log_bounded (List.replicate 100 ⟨1, 0, ("25544", "48274")⟩)
      0 "25544" "48274" (by simp)).2.2 (by simp)⟩
